import Mathlib

/-!
Verification of the BookPilot backend (Django, `pilot` app) against its
natural-language specification.  The relevant views and model methods are
shallowly embedded as pure Lean functions: Django model rows become Lean
structures, request handlers become functions from a request value and the
current state to a response value and the next state, and the text fields
holding JSON become an explicit sum of "valid JSON array" and "invalid text"
so that the `json.loads` / `json.dumps` round trip is represented faithfully.
-/

namespace BookPilot

/-- User primary keys. -/
abbrev UserId := Nat

/-- A serialized ProseMirror step (an opaque JSON blob to the backend). -/
abbrev Step := String

/-- A collaborating client's identifier, as sent in the `clientID` field. -/
abbrev ClientId := String

/-- A `TextField` that the code reads with `json.loads` expecting a JSON
array: either it holds a well-formed JSON encoding of a list of items
(everything `json.dumps` of a list, or the default `'[]'`, produces), or it
holds text that `json.loads` cannot parse. -/
inductive StoredText where
  | jsonList (items : List String)
  | badJson (raw : String)
deriving DecidableEq, Repr

/-- `json.loads` on a `StoredText`: succeeds exactly on well-formed text. -/
def json_loads : StoredText → Option (List String)
  | .jsonList items => some items
  | .badJson _ => none

/-- `json.dumps` of a list always yields well-formed text. -/
def json_dumps (items : List String) : StoredText :=
  .jsonList items

/-- `pilot.models.CollaborationState`: version counter plus two JSON text
fields (serialized steps and their client ids), one row per talking point. -/
structure CollaborationState where
  version : Int
  steps : StoredText
  step_client_ids : StoredText
deriving DecidableEq, Repr

/-- `CollaborationState.get_steps`: `json.loads(self.steps)`, with the bare
`except:` returning `[]` on any parse failure. -/
def CollaborationState.get_steps (s : CollaborationState) : List Step :=
  (json_loads s.steps).getD []

/-- `CollaborationState.set_steps`: stores `json.dumps(steps_list)`. -/
def CollaborationState.set_steps (s : CollaborationState) (steps_list : List Step) :
    CollaborationState :=
  { s with steps := json_dumps steps_list }

/-- `CollaborationState.get_client_ids`: `json.loads(self.step_client_ids)`,
returning `[]` on any parse failure. -/
def CollaborationState.get_client_ids (s : CollaborationState) : List ClientId :=
  (json_loads s.step_client_ids).getD []

/-- `CollaborationState.set_client_ids`: stores `json.dumps(ids_list)`. -/
def CollaborationState.set_client_ids (s : CollaborationState) (ids_list : List ClientId) :
    CollaborationState :=
  { s with step_client_ids := json_dumps ids_list }

/-- The row `get_or_create` builds from the field defaults:
`version=0`, `steps='[]'`, `step_client_ids='[]'`. -/
def CollaborationState.init : CollaborationState :=
  { version := 0, steps := .jsonList [], step_client_ids := .jsonList [] }

/-- The JSON body of a `collab_receive_steps` POST: `version` and `clientID`
may be absent, `steps` defaults to `[]`. -/
structure ReceiveStepsRequest where
  version : Option Int
  steps : List Step
  clientID : Option ClientId
deriving DecidableEq, Repr

/-- Responses of the POST branch of `collab_receive_steps`. -/
inductive PostResult where
  | badRequest (detail : String)
  | conflict (current_version : Int)
  | ok (version : Int)
deriving DecidableEq, Repr

/-- POST branch of `pilot.api.views.collab_receive_steps`: reject when
`version` or `clientID` is missing; reject with 409 and the current version
when the submitted version differs; otherwise extend the two logs (one
client-id copy per step), set `version` to the new step-log length, and save. -/
def collab_receive_steps_post (s : CollaborationState) (req : ReceiveStepsRequest) :
    PostResult × CollaborationState :=
  match req.version, req.clientID with
  | none, _ => (.badRequest "version and clientID are required", s)
  | some _, none => (.badRequest "version and clientID are required", s)
  | some v, some client_id =>
    if v ≠ s.version then
      (.conflict s.version, s)
    else
      let current_steps := s.get_steps ++ req.steps
      let current_client_ids := s.get_client_ids ++ List.replicate req.steps.length client_id
      let s2 := ((s.set_steps current_steps).set_client_ids current_client_ids)
      let s3 := { s2 with version := (current_steps.length : Int) }
      (.ok s3.version, s3)

/-- Python's `lst[n:]` for an `int` `n`: for `n ≥ 0` drop the first `n`
elements; for `n < 0` start at `max(len(lst) + n, 0)`. -/
def pySliceFrom (n : Int) (l : List α) : List α :=
  if 0 ≤ n then l.drop n.toNat else l.drop ((l.length : Int) + n).toNat

/-- GET branch of `collab_receive_steps`: slice both logs from
`since` and report the current version; the state is not written. -/
def collab_receive_steps_get (s : CollaborationState) (since : Int) :
    (List Step × List ClientId × Int) × CollaborationState :=
  ((pySliceFrom since s.get_steps, pySliceFrom since s.get_client_ids, s.version), s)

/-- Run a sequence of POST submissions against one talking point whose
state starts at the `get_or_create` defaults (version 0, empty logs). -/
def runPosts (reqs : List ReceiveStepsRequest) : CollaborationState :=
  reqs.foldl (fun s req => (collab_receive_steps_post s req).2) CollaborationState.init

/-- The concatenation, in acceptance order, of the step batches that are
accepted when `reqs` is submitted in order against state `s`. -/
def acceptedSteps (s : CollaborationState) : List ReceiveStepsRequest → List Step
  | [] => []
  | req :: rest =>
    let out := collab_receive_steps_post s req
    (match out.1 with
     | .ok _ => req.steps
     | _ => ([] : List Step)) ++ acceptedSteps out.2 rest

/-- The collaboration invariant: the version equals the length of the step
log and of the client-id log. -/
def CollaborationState.wf (s : CollaborationState) : Prop :=
  s.version = (s.get_steps.length : Int) ∧ s.version = (s.get_client_ids.length : Int)

instance (s : CollaborationState) : Decidable s.wf := by
  unfold CollaborationState.wf
  infer_instance

theorem wf_init : CollaborationState.init.wf := by
  constructor <;> rfl

/-- One POST call preserves the invariant, accepted or rejected. -/
theorem wf_post (s : CollaborationState) (req : ReceiveStepsRequest) (h : s.wf) :
    (collab_receive_steps_post s req).2.wf := by
  obtain ⟨h1, h2⟩ := h
  unfold collab_receive_steps_post
  split
  · exact ⟨h1, h2⟩
  · exact ⟨h1, h2⟩
  · split
    · exact ⟨h1, h2⟩
    · refine ⟨rfl, ?_⟩
      simp only [CollaborationState.get_steps, CollaborationState.get_client_ids,
        CollaborationState.set_steps, CollaborationState.set_client_ids,
        json_dumps, json_loads, Option.getD_some, List.length_append,
        List.length_replicate] at *
      omega

/-- Every state reachable by a POST sequence from the initial state
satisfies the invariant. -/
theorem wf_runPosts (reqs : List ReceiveStepsRequest) : (runPosts reqs).wf := by
  have general : ∀ (l : List ReceiveStepsRequest) (s : CollaborationState), s.wf →
      (l.foldl (fun s req => (collab_receive_steps_post s req).2) s).wf := by
    intro l
    induction l with
    | nil => intro s hs; exact hs
    | cons req rest ih =>
      intro s hs
      exact ih _ (wf_post s req hs)
  exact general reqs CollaborationState.init wf_init

/-- The exact effect of an accepted POST (submitted version equal to the
current version): both logs are extended and the version becomes the new
step-log length. -/
theorem post_accept_effect (s : CollaborationState) (steps : List Step) (cid : ClientId) :
    collab_receive_steps_post s { version := some s.version, steps := steps, clientID := some cid } =
      (PostResult.ok ((s.get_steps ++ steps).length : Int),
       { version := ((s.get_steps ++ steps).length : Int),
         steps := json_dumps (s.get_steps ++ steps),
         step_client_ids := json_dumps (s.get_client_ids ++ List.replicate steps.length cid) }) := by
  unfold collab_receive_steps_post
  simp [CollaborationState.set_steps, CollaborationState.set_client_ids]

/-- C1: starting from version 0 with empty logs, after every
`collab_receive_steps` POST — accepted or rejected — the state satisfies
`version = len(steps log) = len(client_ids log)`; an accepted submission of
`k` steps appends those `k` steps to the step log and `k` copies of the
submitted client id to the client-id log, and sets `version` to the new
log length. -/
theorem collab_version_log_invariant :
    (∀ reqs : List ReceiveStepsRequest, (runPosts reqs).wf) ∧
    (∀ (s : CollaborationState) (steps : List Step) (cid : ClientId),
      (collab_receive_steps_post s
        { version := some s.version, steps := steps, clientID := some cid }).2.get_steps =
          s.get_steps ++ steps ∧
      (collab_receive_steps_post s
        { version := some s.version, steps := steps, clientID := some cid }).2.get_client_ids =
          s.get_client_ids ++ List.replicate steps.length cid ∧
      (collab_receive_steps_post s
        { version := some s.version, steps := steps, clientID := some cid }).2.version =
          ((s.get_steps ++ steps).length : Int) ∧
      (collab_receive_steps_post s
        { version := some s.version, steps := steps, clientID := some cid }).1 =
          PostResult.ok ((s.get_steps ++ steps).length : Int)) := by
  refine ⟨wf_runPosts, ?_⟩
  intro s steps cid
  rw [post_accept_effect]
  exact ⟨rfl, rfl, rfl, rfl⟩

/-- C2: a POST whose submitted version differs from the current version is
answered with a conflict carrying the current version, and the state —
step log, client-id log and version — is returned untouched. -/
theorem collab_version_mismatch_rejected (s : CollaborationState)
    (v : Int) (steps : List Step) (cid : ClientId) (h : v ≠ s.version) :
    collab_receive_steps_post s { version := some v, steps := steps, clientID := some cid } =
      (PostResult.conflict s.version, s) := by
  unfold collab_receive_steps_post
  simp [h]

/-- C2 witness: a submission at version 1 against a fresh state (version 0)
is rejected with the current version 0 and no change. -/
theorem collab_version_mismatch_rejected_witness :
    collab_receive_steps_post CollaborationState.init
        { version := some 1, steps := ["s1"], clientID := some "cA" } =
      (PostResult.conflict 0, CollaborationState.init) :=
  collab_version_mismatch_rejected CollaborationState.init 1 ["s1"] "cA" (by decide)

/-- C9: a POST whose version matches but whose step list is empty is
reported as a success at the unchanged version, and leaves the step log,
client-id log and version exactly as they were. -/
theorem collab_empty_steps_noop (s : CollaborationState) (h : s.wf) (cid : ClientId) :
    (collab_receive_steps_post s
      { version := some s.version, steps := [], clientID := some cid }).1 =
        PostResult.ok s.version ∧
    (collab_receive_steps_post s
      { version := some s.version, steps := [], clientID := some cid }).2.get_steps =
        s.get_steps ∧
    (collab_receive_steps_post s
      { version := some s.version, steps := [], clientID := some cid }).2.get_client_ids =
        s.get_client_ids ∧
    (collab_receive_steps_post s
      { version := some s.version, steps := [], clientID := some cid }).2.version =
        s.version := by
  obtain ⟨h1, h2⟩ := h
  rw [post_accept_effect]
  refine ⟨?_, ?_, ?_, ?_⟩ <;>
    simp [CollaborationState.get_steps, CollaborationState.get_client_ids,
      json_dumps, json_loads, h1]

/-- C9 witness: an empty submission at the matching version 2 succeeds and
changes nothing. -/
theorem collab_empty_steps_noop_witness :
    (collab_receive_steps_post
      { version := 2, steps := .jsonList ["a", "b"], step_client_ids := .jsonList ["x", "y"] }
      { version := some 2, steps := [], clientID := some "c" }).1 = PostResult.ok 2 ∧
    (collab_receive_steps_post
      { version := 2, steps := .jsonList ["a", "b"], step_client_ids := .jsonList ["x", "y"] }
      { version := some 2, steps := [], clientID := some "c" }).2.get_steps = ["a", "b"] ∧
    (collab_receive_steps_post
      { version := 2, steps := .jsonList ["a", "b"], step_client_ids := .jsonList ["x", "y"] }
      { version := some 2, steps := [], clientID := some "c" }).2.get_client_ids = ["x", "y"] ∧
    (collab_receive_steps_post
      { version := 2, steps := .jsonList ["a", "b"], step_client_ids := .jsonList ["x", "y"] }
      { version := some 2, steps := [], clientID := some "c" }).2.version = 2 :=
  collab_empty_steps_noop
    { version := 2, steps := .jsonList ["a", "b"], step_client_ids := .jsonList ["x", "y"] }
    (by decide) "c"

/-- One POST appends to the step log exactly its batch when accepted and
nothing otherwise. -/
theorem post_get_steps (s : CollaborationState) (req : ReceiveStepsRequest) :
    (collab_receive_steps_post s req).2.get_steps =
      s.get_steps ++ (match (collab_receive_steps_post s req).1 with
        | .ok _ => req.steps
        | _ => ([] : List Step)) := by
  unfold collab_receive_steps_post
  split
  · simp
  · simp
  · split
    · simp
    · simp [CollaborationState.get_steps, CollaborationState.set_steps,
        CollaborationState.set_client_ids, json_dumps, json_loads]

/-- Folding a request sequence appends exactly the accepted batches, in
order, to the step log. -/
theorem foldl_get_steps (reqs : List ReceiveStepsRequest) :
    ∀ s : CollaborationState,
      (reqs.foldl (fun s req => (collab_receive_steps_post s req).2) s).get_steps =
        s.get_steps ++ acceptedSteps s reqs := by
  induction reqs with
  | nil => intro s; simp [acceptedSteps]
  | cons req rest ih =>
    intro s
    rw [List.foldl_cons, ih, acceptedSteps]
    rw [post_get_steps s req]
    simp

/-- C3: the GET branch returns the parallel suffixes of both logs from
`since_version` with the current version and does not change the state;
`since_version = 0` returns the full history, which after any accepted
sequence is the concatenation of the accepted batches in acceptance order;
a `since_version` at or past the log length returns empty lists. -/
theorem collab_get_steps_since :
    (∀ (s : CollaborationState) (n : Int), 0 ≤ n →
      collab_receive_steps_get s n =
        ((s.get_steps.drop n.toNat, s.get_client_ids.drop n.toNat, s.version), s)) ∧
    (∀ s : CollaborationState,
      collab_receive_steps_get s 0 = ((s.get_steps, s.get_client_ids, s.version), s)) ∧
    (∀ reqs : List ReceiveStepsRequest,
      (collab_receive_steps_get (runPosts reqs) 0).1.1 =
        acceptedSteps CollaborationState.init reqs) ∧
    (∀ (s : CollaborationState) (n : Int), s.wf → (s.get_steps.length : Int) ≤ n →
      (collab_receive_steps_get s n).1.1 = [] ∧
      (collab_receive_steps_get s n).1.2.1 = []) := by
  have part1 : ∀ (s : CollaborationState) (n : Int), 0 ≤ n →
      collab_receive_steps_get s n =
        ((s.get_steps.drop n.toNat, s.get_client_ids.drop n.toNat, s.version), s) := by
    intro s n hn
    unfold collab_receive_steps_get pySliceFrom
    simp only [if_pos hn]
  refine ⟨part1, ?_, ?_, ?_⟩
  · intro s
    have := part1 s 0 (le_refl 0)
    simpa using this
  · intro reqs
    have h0 := part1 (runPosts reqs) 0 (le_refl 0)
    rw [h0]
    simp only [Int.toNat_zero, List.drop_zero]
    have := foldl_get_steps reqs CollaborationState.init
    unfold runPosts
    rw [this]
    rfl
  · intro s n hwf hn
    obtain ⟨h1, h2⟩ := hwf
    have hn0 : 0 ≤ n := le_trans (Int.ofNat_nonneg _) hn
    rw [part1 s n hn0]
    constructor
    · exact List.drop_eq_nil_of_le (by omega)
    · exact List.drop_eq_nil_of_le (by omega)

/-- C3 witness: on a two-step state, `since = 1` yields the one-element
suffixes, and `since = 5` (past the end) yields empty lists. -/
theorem collab_get_steps_since_witness :
    collab_receive_steps_get
        { version := 2, steps := .jsonList ["a", "b"], step_client_ids := .jsonList ["x", "y"] }
        1 =
      (( ["b"], ["y"], 2),
        { version := 2, steps := .jsonList ["a", "b"], step_client_ids := .jsonList ["x", "y"] }) ∧
    (collab_receive_steps_get
        { version := 2, steps := .jsonList ["a", "b"], step_client_ids := .jsonList ["x", "y"] }
        5).1.1 = [] ∧
    (collab_receive_steps_get
        { version := 2, steps := .jsonList ["a", "b"], step_client_ids := .jsonList ["x", "y"] }
        5).1.2.1 = [] :=
  ⟨collab_get_steps_since.1
      { version := 2, steps := .jsonList ["a", "b"], step_client_ids := .jsonList ["x", "y"] }
      1 (by decide),
   (collab_get_steps_since.2.2.2
      { version := 2, steps := .jsonList ["a", "b"], step_client_ids := .jsonList ["x", "y"] }
      5 (by decide) (by decide)).1,
   (collab_get_steps_since.2.2.2
      { version := 2, steps := .jsonList ["a", "b"], step_client_ids := .jsonList ["x", "y"] }
      5 (by decide) (by decide)).2⟩

/-- C10: on any stored text that is not valid JSON, `get_steps` and
`get_client_ids` return the empty list rather than raising, so reading the
history always yields a list. -/
theorem accessors_total_on_bad_json (v : Int) (raw raw2 : String) (t t2 : StoredText) :
    (CollaborationState.mk v (.badJson raw) t).get_steps = [] ∧
    (CollaborationState.mk v t2 (.badJson raw2)).get_client_ids = [] :=
  ⟨rfl, rfl⟩

/-! ## Books, collaborators and access predicates -/

/-- Timestamps (`timezone.now()` values), abstracted. -/
abbrev Time := Nat

/-- Collaborator roles (`BookCollaborator.role` choices). -/
inductive Role where
  | editor
  | viewer
  | commenter
deriving DecidableEq, Repr

/-- One `pilot.models.BookCollaborator` row for a fixed book. -/
structure BookCollaborator where
  user : UserId
  role : Role
deriving DecidableEq, Repr

/-- A `pilot.models.Book` row with its collaborator rows (at most one per
user, by the `unique_together` constraint; `user` is the owner). -/
structure Book where
  user : UserId
  collaborators : List BookCollaborator
deriving DecidableEq, Repr

/-- `pilot.api.views.user_has_book_access`: owner, or some collaborator row. -/
def user_has_book_access (u : UserId) (b : Book) : Bool :=
  b.user == u || b.collaborators.any (fun c => c.user == u)

/-- `pilot.api.views.user_can_edit_book`: owner, or the collaborator row has
role `editor`. -/
def user_can_edit_book (u : UserId) (b : Book) : Bool :=
  b.user == u ||
    (match b.collaborators.find? (fun c => c.user == u) with
     | some c => c.role == Role.editor
     | none => false)

/-- `pilot.api.views.user_can_comment_book`: owner, or the collaborator row
has role `editor` or `commenter`. -/
def user_can_comment_book (u : UserId) (b : Book) : Bool :=
  b.user == u ||
    (match b.collaborators.find? (fun c => c.user == u) with
     | some c => c.role == Role.editor || c.role == Role.commenter
     | none => false)

/-! ## Content changes (suggestions) -/

/-- A `pilot.models.ContentChange` row (its talking point implicit):
`step_json` is the JSON array of steps, `status` one of
`pending`/`approved`/`rejected`. -/
structure ContentChange where
  user : UserId
  step_json : List Step
  comment : String
  status : String
  approved_by : Option UserId
  approved_at : Option Time
deriving DecidableEq, Repr

/-- The editable fields of a `pilot.models.TalkingPoint` row. -/
structure TalkingPoint where
  text : String
  content : Option String
deriving DecidableEq, Repr

/-- Body of a `content_changes_list_create` POST: `step_json` absent, or a
JSON array (possibly empty — both are falsy in the `if not step_json`
check); `comment` defaults to the empty string. -/
structure CreateChangeRequest where
  step_json : Option (List Step)
  comment : String
deriving DecidableEq, Repr

/-- Outcome of the POST branch of `content_changes_list_create`. -/
inductive CreateChangeResult where
  | notFound
  | badRequest
  | forbidden
  | created (change : ContentChange)
deriving DecidableEq, Repr

/-- POST branch of `pilot.api.views.content_changes_list_create`: 404 when
the caller has no access; 400 for the owner; 403 when the caller is not a
collaborator or is a viewer; 400 when `step_json` is falsy; otherwise a new
pending change is created. -/
def content_changes_create (u : UserId) (b : Book) (req : CreateChangeRequest) :
    CreateChangeResult :=
  if ¬ user_has_book_access u b then .notFound
  else if b.user = u then .badRequest
  else
    match b.collaborators.find? (fun c => c.user == u) with
    | none => .forbidden
    | some c =>
      if c.role = Role.viewer then .forbidden
      else
        match req.step_json with
        | none => .badRequest
        | some sj =>
          if sj = [] then .badRequest
          else .created
            { user := u, step_json := sj, comment := req.comment,
              status := "pending", approved_by := none, approved_at := none }

/-- Body of a `content_change_detail` PATCH. -/
structure PatchRequest where
  status : Option String
  step_json : Option (List Step)
deriving DecidableEq, Repr

/-- Response classes of `content_change_detail` PATCH. -/
inductive PatchStatus where
  | ok200
  | badRequest400
  | forbidden403
  | notFound404
deriving DecidableEq, Repr

/-- PATCH branch of `pilot.api.views.content_change_detail`.  The talking
point and its collaboration state are threaded through untouched, exactly
as in the view, which loads and saves only the `ContentChange` row: 404
without access, 403 for non-owners, the `step_json`-only branch updates
pending changes, a status update must name `approved` or `rejected`, must
differ from the current status, and on approval stamps
`approved_by`/`approved_at` while on rejection it clears them. -/
def content_change_detail_patch (u : UserId) (b : Book) (now : Time)
    (tp : TalkingPoint) (cs : CollaborationState) (change : ContentChange)
    (req : PatchRequest) :
    PatchStatus × ContentChange × TalkingPoint × CollaborationState :=
  if ¬ user_has_book_access u b then (.notFound404, change, tp, cs)
  else if b.user ≠ u then (.forbidden403, change, tp, cs)
  else
    match req.step_json, req.status with
    | some sj, none =>
      if change.status ≠ "pending" then (.badRequest400, change, tp, cs)
      else (.ok200, { change with step_json := sj }, tp, cs)
    | _, _ =>
      match req.status with
      | none => (.badRequest400, change, tp, cs)
      | some ns =>
        if ns ≠ "approved" ∧ ns ≠ "rejected" then (.badRequest400, change, tp, cs)
        else if change.status = ns then (.badRequest400, change, tp, cs)
        else if ns = "approved" then
          (.ok200,
            { change with status := ns, approved_by := some u, approved_at := some now },
            tp, cs)
        else
          (.ok200,
            { change with status := ns, approved_by := none, approved_at := none },
            tp, cs)

/-- A matching collaborator row implies book access. -/
theorem access_of_find (u : UserId) (b : Book) (c : BookCollaborator)
    (h : b.collaborators.find? (fun c => c.user == u) = some c) :
    user_has_book_access u b = true := by
  have hmem := List.mem_of_find?_eq_some h
  have hp := List.find?_some h
  simp only [user_has_book_access, Bool.or_eq_true, List.any_eq_true]
  exact Or.inr ⟨c, hmem, hp⟩

/-- C4: an owner's approval of a not-yet-approved change only sets the
status and stamps `approved_by`/`approved_at`; the talking point (its
content included) and the collaboration state come back untouched, the
change's steps are not applied anywhere; a rejection sets the status and
clears the approval stamps. -/
theorem approve_only_stamps (u : UserId) (b : Book) (now : Time)
    (tp : TalkingPoint) (cs : CollaborationState) (change : ContentChange)
    (howner : b.user = u) :
    (change.status ≠ "approved" →
      content_change_detail_patch u b now tp cs change
          { status := some "approved", step_json := none } =
        (.ok200,
          { change with status := "approved", approved_by := some u, approved_at := some now },
          tp, cs)) ∧
    (change.status ≠ "rejected" →
      content_change_detail_patch u b now tp cs change
          { status := some "rejected", step_json := none } =
        (.ok200,
          { change with status := "rejected", approved_by := none, approved_at := none },
          tp, cs)) := by
  subst howner
  constructor
  · intro hne
    simp [content_change_detail_patch, user_has_book_access, hne]
  · intro hne
    simp [content_change_detail_patch, user_has_book_access, hne]

/-- C4 witness: approving and rejecting a concrete pending change. -/
theorem approve_only_stamps_witness :
    (content_change_detail_patch 0 ⟨0, []⟩ 7 ⟨"t", some "doc"⟩ CollaborationState.init
        ⟨1, ["s"], "", "pending", none, none⟩ { status := some "approved", step_json := none } =
      (.ok200, ⟨1, ["s"], "", "approved", some 0, some 7⟩, ⟨"t", some "doc"⟩,
        CollaborationState.init)) ∧
    (content_change_detail_patch 0 ⟨0, []⟩ 7 ⟨"t", some "doc"⟩ CollaborationState.init
        ⟨1, ["s"], "", "pending", none, none⟩ { status := some "rejected", step_json := none } =
      (.ok200, ⟨1, ["s"], "", "rejected", none, none⟩, ⟨"t", some "doc"⟩,
        CollaborationState.init)) :=
  ⟨(approve_only_stamps 0 ⟨0, []⟩ 7 ⟨"t", some "doc"⟩ CollaborationState.init
      ⟨1, ["s"], "", "pending", none, none⟩ rfl).1 (by decide),
   (approve_only_stamps 0 ⟨0, []⟩ 7 ⟨"t", some "doc"⟩ CollaborationState.init
      ⟨1, ["s"], "", "pending", none, none⟩ rfl).2 (by decide)⟩

/-- C5: asking for the status the change already has (approved→approved or
rejected→rejected) is answered with 400 and the change — status and
approval stamps included — is left exactly as it was. -/
theorem redundant_decision_rejected (u : UserId) (b : Book) (now : Time)
    (tp : TalkingPoint) (cs : CollaborationState) (change : ContentChange) (ns : String)
    (howner : b.user = u) (hsame : change.status = ns)
    (hval : ns = "approved" ∨ ns = "rejected") :
    content_change_detail_patch u b now tp cs change { status := some ns, step_json := none } =
      (.badRequest400, change, tp, cs) := by
  subst howner
  rcases hval with h | h <;> subst h <;>
    simp [content_change_detail_patch, user_has_book_access, hsame]

/-- C5 witness: re-approving an already approved change is a 400 no-op. -/
theorem redundant_decision_rejected_witness :
    content_change_detail_patch 0 ⟨0, []⟩ 7 ⟨"t", none⟩ CollaborationState.init
        ⟨1, ["s"], "", "approved", some 0, some 3⟩
        { status := some "approved", step_json := none } =
      (.badRequest400, ⟨1, ["s"], "", "approved", some 0, some 3⟩, ⟨"t", none⟩,
        CollaborationState.init) :=
  redundant_decision_rejected 0 ⟨0, []⟩ 7 ⟨"t", none⟩ CollaborationState.init
    ⟨1, ["s"], "", "approved", some 0, some 3⟩ "approved" rfl rfl (Or.inl rfl)

/-- C6 counterexample: a commenter-role collaborator (user 1 on a book
owned by user 0) submits a non-empty step list and the change IS created
(status `pending`), although the claim says a commenter is always
rejected. -/
theorem commenter_can_create_change_cex :
    content_changes_create 1 ⟨0, [⟨1, Role.commenter⟩]⟩ ⟨some ["s1"], "note"⟩ =
      .created ⟨1, ["s1"], "note", "pending", none, none⟩ := by
  decide

/-- C6 amended: creating a change succeeds exactly for a non-owner whose
collaborator row exists with a role other than `viewer` (so editors AND
commenters) and a non-empty step list, and the created change is pending;
the owner is always rejected with 400, a viewer-role collaborator is
rejected with 403, a caller with no access at all (neither owner nor
collaborator) is rejected with 404 at the access gate, and a missing or
empty `step_json` is rejected with 400. -/
theorem content_changes_create_charn :
    (∀ (u : UserId) (b : Book) (req : CreateChangeRequest) (change : ContentChange),
      content_changes_create u b req = .created change →
        change.status = "pending" ∧ change.user = u ∧ b.user ≠ u ∧
        (∃ c, b.collaborators.find? (fun c => c.user == u) = some c ∧ c.role ≠ Role.viewer) ∧
        (∃ sj, req.step_json = some sj ∧ sj ≠ [] ∧ change.step_json = sj)) ∧
    (∀ (u : UserId) (b : Book) (req : CreateChangeRequest) (c : BookCollaborator)
        (sj : List Step),
      b.user ≠ u →
      b.collaborators.find? (fun c => c.user == u) = some c →
      c.role ≠ Role.viewer →
      req.step_json = some sj → sj ≠ [] →
      content_changes_create u b req = .created
        { user := u, step_json := sj, comment := req.comment, status := "pending",
          approved_by := none, approved_at := none }) ∧
    (∀ (b : Book) (req : CreateChangeRequest),
      content_changes_create b.user b req = .badRequest) ∧
    (∀ (u : UserId) (b : Book) (req : CreateChangeRequest) (c : BookCollaborator),
      b.user ≠ u → b.collaborators.find? (fun c => c.user == u) = some c →
      c.role = Role.viewer → content_changes_create u b req = .forbidden) ∧
    (∀ (u : UserId) (b : Book) (c : BookCollaborator) (comment : String),
      b.user ≠ u → b.collaborators.find? (fun c => c.user == u) = some c →
      c.role ≠ Role.viewer →
      content_changes_create u b ⟨none, comment⟩ = .badRequest ∧
      content_changes_create u b ⟨some [], comment⟩ = .badRequest) ∧
    (∀ (u : UserId) (b : Book) (req : CreateChangeRequest),
      user_has_book_access u b = false →
      content_changes_create u b req = .notFound) := by
  refine ⟨?_, ?_, ?_, ?_, ?_, ?_⟩
  · intro u b req change h
    unfold content_changes_create at h
    split at h
    · simp at h
    · split at h
      · simp at h
      · rename_i hno
        split at h
        · simp at h
        · rename_i c hfind
          split at h
          · simp at h
          · rename_i hviewer
            split at h
            · simp at h
            · rename_i sj hsj
              split at h
              · simp at h
              · rename_i hne
                rw [CreateChangeResult.created.injEq] at h
                subst h
                exact ⟨rfl, rfl, hno, ⟨c, hfind, hviewer⟩, ⟨sj, hsj, hne, rfl⟩⟩
  · intro u b req c sj hno hfind hrole hsj hne
    have hacc := access_of_find u b c hfind
    unfold content_changes_create
    rw [hacc, hfind, hsj]
    simp [hno, hrole, hne]
  · intro b req
    unfold content_changes_create
    simp [user_has_book_access]
  · intro u b req c hno hfind hrole
    have hacc := access_of_find u b c hfind
    unfold content_changes_create
    rw [hacc, hfind]
    simp [hno, hrole]
  · intro u b c comment hno hfind hrole
    have hacc := access_of_find u b c hfind
    constructor <;>
      · unfold content_changes_create
        rw [hacc, hfind]
        simp [hno, hrole]
  · intro u b req h
    simp [content_changes_create, h]

/-- C6 amended witness: an editor-role collaborator creates a pending
change; the owner, a viewer and an empty step list are rejected, and a
caller with no access gets 404. -/
theorem content_changes_create_charn_witness :
    content_changes_create 1 ⟨0, [⟨1, Role.editor⟩, ⟨2, Role.viewer⟩]⟩ ⟨some ["s1"], ""⟩ =
      .created ⟨1, ["s1"], "", "pending", none, none⟩ ∧
    content_changes_create 0 ⟨0, [⟨1, Role.editor⟩, ⟨2, Role.viewer⟩]⟩ ⟨some ["s1"], ""⟩ =
      .badRequest ∧
    content_changes_create 2 ⟨0, [⟨1, Role.editor⟩, ⟨2, Role.viewer⟩]⟩ ⟨some ["s1"], ""⟩ =
      .forbidden ∧
    content_changes_create 1 ⟨0, [⟨1, Role.editor⟩, ⟨2, Role.viewer⟩]⟩ ⟨none, ""⟩ =
      .badRequest ∧
    content_changes_create 1 ⟨0, [⟨1, Role.editor⟩, ⟨2, Role.viewer⟩]⟩ ⟨some [], ""⟩ =
      .badRequest ∧
    content_changes_create 5 ⟨0, [⟨1, Role.editor⟩, ⟨2, Role.viewer⟩]⟩ ⟨some ["s1"], ""⟩ =
      .notFound :=
  ⟨content_changes_create_charn.2.1 1 ⟨0, [⟨1, Role.editor⟩, ⟨2, Role.viewer⟩]⟩
      ⟨some ["s1"], ""⟩ ⟨1, Role.editor⟩ ["s1"] (by decide) (by decide) (by decide) rfl
      (by decide),
   content_changes_create_charn.2.2.1 ⟨0, [⟨1, Role.editor⟩, ⟨2, Role.viewer⟩]⟩
      ⟨some ["s1"], ""⟩,
   content_changes_create_charn.2.2.2.1 2 ⟨0, [⟨1, Role.editor⟩, ⟨2, Role.viewer⟩]⟩
      ⟨some ["s1"], ""⟩ ⟨2, Role.viewer⟩ (by decide) (by decide) rfl,
   (content_changes_create_charn.2.2.2.2.1 1 ⟨0, [⟨1, Role.editor⟩, ⟨2, Role.viewer⟩]⟩
      ⟨1, Role.editor⟩ "" (by decide) (by decide) (by decide)).1,
   (content_changes_create_charn.2.2.2.2.1 1 ⟨0, [⟨1, Role.editor⟩, ⟨2, Role.viewer⟩]⟩
      ⟨1, Role.editor⟩ "" (by decide) (by decide) (by decide)).2,
   content_changes_create_charn.2.2.2.2.2 5 ⟨0, [⟨1, Role.editor⟩, ⟨2, Role.viewer⟩]⟩
      ⟨some ["s1"], ""⟩ (by decide)⟩

/-! ## Authorization gates of the shared-resource endpoints -/

/-- The authorization-relevant outcome of a view, with the guarded action
abstracted to `proceed`. -/
inductive GateResult where
  | notFound
  | forbidden
  | proceed
deriving DecidableEq, Repr

/-- Gate of `comments_list_create` (the talking point exists): no access →
403 "You do not have access to this book"; a POST by a user who cannot
comment → 403. -/
def comments_list_create_gate (u : UserId) (b : Book) (isPost : Bool) : GateResult :=
  if ¬ user_has_book_access u b then .forbidden
  else if isPost ∧ ¬ user_can_comment_book u b then .forbidden
  else .proceed

/-- Gate of `delete_talking_point` (the talking point exists): no access →
403 "You do not have permission to delete this talking point". -/
def delete_talking_point_gate (u : UserId) (b : Book) : GateResult :=
  if ¬ user_has_book_access u b then .forbidden else .proceed

/-- Gate of `update_talking_point` (the talking point exists): not an
editor → 403, with no separate access check. -/
def update_talking_point_gate (u : UserId) (b : Book) : GateResult :=
  if ¬ user_can_edit_book u b then .forbidden else .proceed

/-- Gate of `content_changes_list_create` (the talking point exists): no
access → 404 "Not found". -/
def content_changes_list_create_gate (u : UserId) (b : Book) : GateResult :=
  if ¬ user_has_book_access u b then .notFound else .proceed

/-- Gate of `collab_get_state` (the talking point exists): no access →
404 "Not found". -/
def collab_get_state_gate (u : UserId) (b : Book) : GateResult :=
  if ¬ user_has_book_access u b then .notFound else .proceed

/-- Gate of `collab_receive_steps` (the talking point exists): no access →
404 "Not found". -/
def collab_receive_steps_gate (u : UserId) (b : Book) : GateResult :=
  if ¬ user_has_book_access u b then .notFound else .proceed

/-- C7 counterexample: user 5 has no relation at all to the book owned by
user 0 with collaborator 1, yet `comments_list_create` and
`delete_talking_point` answer 403 Forbidden, not the 404 the claim
requires for a caller with no access. -/
theorem no_access_gets_forbidden_cex :
    user_has_book_access 5 ⟨0, [⟨1, Role.editor⟩]⟩ = false ∧
    comments_list_create_gate 5 ⟨0, [⟨1, Role.editor⟩]⟩ true = .forbidden ∧
    comments_list_create_gate 5 ⟨0, [⟨1, Role.editor⟩]⟩ false = .forbidden ∧
    delete_talking_point_gate 5 ⟨0, [⟨1, Role.editor⟩]⟩ = .forbidden := by
  decide

/-- C7 amended: a caller with no access gets 404 from the content-change
and collaboration endpoints, but 403 from `comments_list_create` and
`delete_talking_point` (and `update_talking_point` checks only the editor
predicate); a caller with access but without the required role gets 403
(non-commenters posting comments, non-owners deciding changes,
non-editors updating talking points). -/
theorem access_gate_behavior :
    (∀ (u : UserId) (b : Book), user_has_book_access u b = false →
      content_changes_list_create_gate u b = .notFound ∧
      collab_get_state_gate u b = .notFound ∧
      collab_receive_steps_gate u b = .notFound ∧
      (∀ (req : CreateChangeRequest), content_changes_create u b req = .notFound) ∧
      (∀ (now : Time) (tp : TalkingPoint) (cs : CollaborationState)
          (change : ContentChange) (req : PatchRequest),
        content_change_detail_patch u b now tp cs change req =
          (.notFound404, change, tp, cs)) ∧
      (∀ isPost, comments_list_create_gate u b isPost = .forbidden) ∧
      delete_talking_point_gate u b = .forbidden) ∧
    (∀ (u : UserId) (b : Book), user_has_book_access u b = true →
      user_can_comment_book u b = false →
      comments_list_create_gate u b true = .forbidden) ∧
    (∀ (u : UserId) (b : Book), user_has_book_access u b = true →
      user_can_edit_book u b = false →
      update_talking_point_gate u b = .forbidden) ∧
    (∀ (u : UserId) (b : Book) (now : Time) (tp : TalkingPoint)
        (cs : CollaborationState) (change : ContentChange) (req : PatchRequest),
      user_has_book_access u b = true → b.user ≠ u →
      content_change_detail_patch u b now tp cs change req =
        (.forbidden403, change, tp, cs)) := by
  refine ⟨?_, ?_, ?_, ?_⟩
  · intro u b h
    refine ⟨?_, ?_, ?_, ?_, ?_, ?_, ?_⟩
    · simp [content_changes_list_create_gate, h]
    · simp [collab_get_state_gate, h]
    · simp [collab_receive_steps_gate, h]
    · intro req
      simp [content_changes_create, h]
    · intro now tp cs change req
      simp [content_change_detail_patch, h]
    · intro isPost
      simp [comments_list_create_gate, h]
    · simp [delete_talking_point_gate, h]
  · intro u b hacc hcom
    simp [comments_list_create_gate, hacc, hcom]
  · intro u b _ hedit
    simp [update_talking_point_gate, hedit]
  · intro u b now tp cs change req hacc hno
    simp [content_change_detail_patch, hacc, hno]

/-- C7 amended witness: for the concrete book (owner 0, viewer 2) the
no-access caller 5 gets 404 from the suggestion and collaboration
endpoints and 403 from comments and deletion, while viewer 2 (has access)
gets 403 posting a comment, updating a talking point, and deciding a
change. -/
theorem access_gate_behavior_witness :
    (content_changes_list_create_gate 5 ⟨0, [⟨2, Role.viewer⟩]⟩ = .notFound ∧
      collab_get_state_gate 5 ⟨0, [⟨2, Role.viewer⟩]⟩ = .notFound ∧
      collab_receive_steps_gate 5 ⟨0, [⟨2, Role.viewer⟩]⟩ = .notFound ∧
      (∀ (req : CreateChangeRequest),
        content_changes_create 5 ⟨0, [⟨2, Role.viewer⟩]⟩ req = .notFound) ∧
      (∀ (now : Time) (tp : TalkingPoint) (cs : CollaborationState)
          (change : ContentChange) (req : PatchRequest),
        content_change_detail_patch 5 ⟨0, [⟨2, Role.viewer⟩]⟩ now tp cs change req =
          (.notFound404, change, tp, cs)) ∧
      (∀ isPost, comments_list_create_gate 5 ⟨0, [⟨2, Role.viewer⟩]⟩ isPost = .forbidden) ∧
      delete_talking_point_gate 5 ⟨0, [⟨2, Role.viewer⟩]⟩ = .forbidden) ∧
    comments_list_create_gate 2 ⟨0, [⟨2, Role.viewer⟩]⟩ true = .forbidden ∧
    update_talking_point_gate 2 ⟨0, [⟨2, Role.viewer⟩]⟩ = .forbidden ∧
    content_change_detail_patch 2 ⟨0, [⟨2, Role.viewer⟩]⟩ 7 ⟨"t", none⟩
        CollaborationState.init ⟨1, ["s"], "", "pending", none, none⟩
        { status := some "approved", step_json := none } =
      (.forbidden403, ⟨1, ["s"], "", "pending", none, none⟩, ⟨"t", none⟩,
        CollaborationState.init) :=
  ⟨access_gate_behavior.1 5 ⟨0, [⟨2, Role.viewer⟩]⟩ (by decide),
   access_gate_behavior.2.1 2 ⟨0, [⟨2, Role.viewer⟩]⟩ (by decide) (by decide),
   access_gate_behavior.2.2.1 2 ⟨0, [⟨2, Role.viewer⟩]⟩ (by decide) (by decide),
   access_gate_behavior.2.2.2 2 ⟨0, [⟨2, Role.viewer⟩]⟩ 7 ⟨"t", none⟩
     CollaborationState.init ⟨1, ["s"], "", "pending", none, none⟩
     { status := some "approved", step_json := none } (by decide) (by decide)⟩

/-! ## Positioning pillars -/

/-- `PositioningPillar.status` choices. -/
inductive PillarStatus where
  | locked
  | active
  | complete
deriving DecidableEq, Repr

/-- One `pilot.models.PositioningPillar` row of a fixed book (the fields
the unlock logic reads: `order`, `slug`, `status`). -/
structure Pillar where
  order : Nat
  slug : String
  status : PillarStatus
deriving DecidableEq, Repr

/-- Setting one pillar's status and saving it, the row being identified by
its (unique per book) order. -/
def setStatusAt (m : Nat) (st : PillarStatus) (ps : List Pillar) : List Pillar :=
  ps.map (fun q => if q.order = m then { q with status := st } else q)

/-- `PositioningPillar.initialize_for_book`: the 9 canonical pillars in
`PILLAR_SLUGS` order, orders 1..9, the first ACTIVE and the rest LOCKED. -/
def initialize_for_book : List Pillar :=
  [{ order := 1, slug := "business_core", status := .active },
   { order := 2, slug := "avatar", status := .locked },
   { order := 3, slug := "emotional_resonance", status := .locked },
   { order := 4, slug := "north_star", status := .locked },
   { order := 5, slug := "pain_points", status := .locked },
   { order := 6, slug := "the_shift", status := .locked },
   { order := 7, slug := "the_edge", status := .locked },
   { order := 8, slug := "the_foundation", status := .locked },
   { order := 9, slug := "the_authority", status := .locked }]

/-- `.order_by("order").first()`: the element with the least order. -/
def firstByOrder : List Pillar → Option Pillar
  | [] => none
  | p :: ps =>
    match firstByOrder ps with
    | none => some p
    | some q => if p.order ≤ q.order then some p else some q

/-- `PositioningPillar.unlock_next_pillar`: a no-op unless the pillar
itself is COMPLETE; otherwise the LOCKED pillar with the least order
greater than `selfOrder`, if any, becomes ACTIVE.  Returns the updated
rows and the unlocked pillar's order. -/
def unlock_next_pillar (selfStatus : PillarStatus) (selfOrder : Nat) (ps : List Pillar) :
    List Pillar × Option Nat :=
  if selfStatus ≠ .complete then (ps, none)
  else
    match firstByOrder (ps.filter
        (fun p => decide (selfOrder < p.order) && (p.status == PillarStatus.locked))) with
    | none => (ps, none)
    | some np => (setStatusAt np.order .active ps, some np.order)

/-- `pilot.api.views.pillar_mark_complete` on the book's pillar of order
`k`: rejected (400) when the pillar is LOCKED or COMPLETE — it must be
ACTIVE; the conversation-depth validation (message count and
`evaluate_pillar_depth`) is abstracted as `checksPass`; on success the
pillar is saved as COMPLETE and `unlock_next_pillar` runs. -/
def pillar_mark_complete (ps : List Pillar) (k : Nat) (checksPass : Bool) : List Pillar :=
  match ps.find? (fun p => p.order == k) with
  | none => ps
  | some p =>
    if p.status ≠ .active then ps
    else if !checksPass then ps
    else (unlock_next_pillar .complete k (setStatusAt k .complete ps)).1

/-- `pilot.api.views.pillar_reset` on the pillar of order `k`: clears its
chat and summary and unconditionally sets it ACTIVE — even if it was
LOCKED or COMPLETE. -/
def pillar_reset (ps : List Pillar) (k : Nat) : List Pillar :=
  match ps.find? (fun p => p.order == k) with
  | none => ps
  | some _ => setStatusAt k .active ps

/-- The pillar-mutating requests of the positioning API. -/
inductive PillarOp where
  | markComplete (k : Nat) (checksPass : Bool)
  | reset (k : Nat)
deriving DecidableEq, Repr

/-- One API call acting on a book's pillar rows. -/
def pillarStep (ps : List Pillar) : PillarOp → List Pillar
  | .markComplete k checksPass => pillar_mark_complete ps k checksPass
  | .reset k => pillar_reset ps k

/-- The pillar rows after a call sequence against a freshly initialized
book. -/
def runPillarOps (ops : List PillarOp) : List Pillar :=
  ops.foldl pillarStep initialize_for_book

theorem firstByOrder_cons_none (p : Pillar) (ps : List Pillar)
    (hf : firstByOrder ps = none) : firstByOrder (p :: ps) = some p := by
  unfold firstByOrder
  rw [hf]

theorem firstByOrder_cons_le (p : Pillar) (ps : List Pillar) (m : Pillar)
    (hf : firstByOrder ps = some m) (hle : p.order ≤ m.order) :
    firstByOrder (p :: ps) = some p := by
  unfold firstByOrder
  rw [hf]
  exact if_pos hle

theorem firstByOrder_cons_gt (p : Pillar) (ps : List Pillar) (m : Pillar)
    (hf : firstByOrder ps = some m) (hle : ¬ p.order ≤ m.order) :
    firstByOrder (p :: ps) = some m := by
  unfold firstByOrder
  rw [hf]
  exact if_neg hle

theorem firstByOrder_isSome (p : Pillar) (ps : List Pillar) :
    ∃ q, firstByOrder (p :: ps) = some q := by
  cases hf : firstByOrder ps
  · exact ⟨p, firstByOrder_cons_none p ps hf⟩
  · rename_i q
    by_cases hle : p.order ≤ q.order
    · exact ⟨p, firstByOrder_cons_le p ps q hf hle⟩
    · exact ⟨q, firstByOrder_cons_gt p ps q hf hle⟩

theorem firstByOrder_mem : ∀ (l : List Pillar) (q : Pillar), firstByOrder l = some q → q ∈ l := by
  intro l
  induction l with
  | nil => intro q h; simp [firstByOrder] at h
  | cons p ps ih =>
    intro q h
    cases hf : firstByOrder ps
    · rw [firstByOrder_cons_none p ps hf, Option.some.injEq] at h
      subst h
      exact List.mem_cons_self _ _
    · rename_i m
      by_cases hle : p.order ≤ m.order
      · rw [firstByOrder_cons_le p ps m hf hle, Option.some.injEq] at h
        subst h
        exact List.mem_cons_self _ _
      · rw [firstByOrder_cons_gt p ps m hf hle, Option.some.injEq] at h
        subst h
        exact List.mem_cons_of_mem _ (ih _ hf)

theorem firstByOrder_le : ∀ (l : List Pillar) (q : Pillar), firstByOrder l = some q →
    ∀ r ∈ l, q.order ≤ r.order := by
  intro l
  induction l with
  | nil => intro q h; simp [firstByOrder] at h
  | cons p ps ih =>
    intro q h r hr
    cases hf : firstByOrder ps
    · rw [firstByOrder_cons_none p ps hf, Option.some.injEq] at h
      subst h
      rcases List.mem_cons.mp hr with rfl | hr2
      · exact le_refl _
      · cases hps : ps with
        | nil => subst hps; simp at hr2
        | cons a as =>
          subst hps
          obtain ⟨w, hw⟩ := firstByOrder_isSome a as
          rw [hw] at hf
          simp at hf
    · rename_i m
      have hm := ih m hf
      by_cases hle : p.order ≤ m.order
      · rw [firstByOrder_cons_le p ps m hf hle, Option.some.injEq] at h
        subst h
        rcases List.mem_cons.mp hr with rfl | hr2
        · exact le_refl _
        · exact le_trans hle (hm r hr2)
      · rw [firstByOrder_cons_gt p ps m hf hle, Option.some.injEq] at h
        subst h
        rcases List.mem_cons.mp hr with rfl | hr2
        · exact le_of_not_le hle
        · exact hm r hr2

/-- When the pillar of order `k + 1` is LOCKED, the unlock step activates
exactly it. -/
theorem unlock_next_exact (k : Nat) (ps : List Pillar) (p : Pillar)
    (hp : p ∈ ps) (hord : p.order = k + 1) (hlk : p.status = .locked) :
    unlock_next_pillar .complete k ps = (setStatusAt (k + 1) .active ps, some (k + 1)) := by
  unfold unlock_next_pillar
  rw [if_neg (fun h => h rfl)]
  have hpf : p ∈ ps.filter
      (fun q => decide (k < q.order) && (q.status == PillarStatus.locked)) :=
    List.mem_filter.mpr ⟨hp, by simp [hord, hlk]⟩
  cases hfil : ps.filter
      (fun q => decide (k < q.order) && (q.status == PillarStatus.locked)) with
  | nil =>
    rw [hfil] at hpf
    simp at hpf
  | cons a as =>
    obtain ⟨np, hnp⟩ := firstByOrder_isSome a as
    rw [hfil] at hpf
    have hmem := firstByOrder_mem _ _ hnp
    have hle := firstByOrder_le _ _ hnp p hpf
    have hnp_in : np ∈ ps.filter
        (fun q => decide (k < q.order) && (q.status == PillarStatus.locked)) := by
      rw [hfil]
      exact hmem
    have hpred := (List.mem_filter.mp hnp_in).2
    have hk : k < np.order := by
      simp only [Bool.and_eq_true, decide_eq_true_eq] at hpred
      exact hpred.1
    have hnord : np.order = k + 1 := by omega
    rw [hnp]
    show (setStatusAt np.order .active ps, some np.order) =
      (setStatusAt (k + 1) .active ps, some (k + 1))
    rw [hnord]

/-- The unlock step either finds no LOCKED pillar above `k` and changes
nothing, or activates exactly the LOCKED pillar with the least order
above `k`. -/
theorem unlock_next_cases (k : Nat) (ps : List Pillar) :
    (unlock_next_pillar .complete k ps = (ps, none) ∧
      ∀ p ∈ ps, ¬ (k < p.order ∧ p.status = PillarStatus.locked)) ∨
    (∃ m, k < m ∧ (∃ p ∈ ps, p.order = m ∧ p.status = PillarStatus.locked) ∧
      (∀ p ∈ ps, k < p.order → p.status = PillarStatus.locked → m ≤ p.order) ∧
      unlock_next_pillar .complete k ps = (setStatusAt m .active ps, some m)) := by
  unfold unlock_next_pillar
  rw [if_neg (fun h => h rfl)]
  cases hfil : ps.filter
      (fun q => decide (k < q.order) && (q.status == PillarStatus.locked)) with
  | nil =>
    left
    constructor
    · rfl
    · intro p hp hcon
      have hpf : p ∈ ps.filter
          (fun q => decide (k < q.order) && (q.status == PillarStatus.locked)) :=
        List.mem_filter.mpr ⟨hp, by simp [hcon.1, hcon.2]⟩
      rw [hfil] at hpf
      simp at hpf
  | cons a as =>
    right
    obtain ⟨np, hnp⟩ := firstByOrder_isSome a as
    have hmem : np ∈ ps.filter
        (fun q => decide (k < q.order) && (q.status == PillarStatus.locked)) := by
      rw [hfil]
      exact firstByOrder_mem _ _ hnp
    have hpred := (List.mem_filter.mp hmem).2
    simp only [Bool.and_eq_true, decide_eq_true_eq, beq_iff_eq] at hpred
    refine ⟨np.order, hpred.1, ⟨np, (List.mem_filter.mp hmem).1, rfl, hpred.2⟩, ?_, ?_⟩
    · intro p hp hkp hlp
      have hpf : p ∈ ps.filter
          (fun q => decide (k < q.order) && (q.status == PillarStatus.locked)) :=
        List.mem_filter.mpr ⟨hp, by simp [hkp, hlp]⟩
      rw [hfil] at hpf
      exact firstByOrder_le _ _ hnp p hpf
    · rw [hnp]

/-- C8 counterexample: from a fresh book, complete pillars 1 and 2, then
reset pillar 2 (the reset endpoint makes ANY pillar ACTIVE).  Pillar 3 is
ACTIVE and pillar 4 LOCKED; completing pillar 2 again now unlocks pillar 4 —
two positions ahead — contradicting "never unlocks a pillar more than one
position ahead" and "only if pillar k+1 was LOCKED". -/
theorem completion_unlocks_two_ahead_cex :
    ((runPillarOps [.markComplete 1 true, .markComplete 2 true, .reset 2]).find?
        (fun p => p.order == 3)).map (fun p => p.status) = some PillarStatus.active ∧
    ((runPillarOps [.markComplete 1 true, .markComplete 2 true, .reset 2]).find?
        (fun p => p.order == 4)).map (fun p => p.status) = some PillarStatus.locked ∧
    ((runPillarOps [.markComplete 1 true, .markComplete 2 true, .reset 2,
        .markComplete 2 true]).find?
        (fun p => p.order == 2)).map (fun p => p.status) = some PillarStatus.complete ∧
    ((runPillarOps [.markComplete 1 true, .markComplete 2 true, .reset 2,
        .markComplete 2 true]).find?
        (fun p => p.order == 4)).map (fun p => p.status) = some PillarStatus.active := by
  decide

/-- C8 amended: completing an ACTIVE pillar of order `k` unlocks at most
one pillar — the LOCKED pillar with the least order above `k`, none when
no later pillar is LOCKED; in particular, when pillar `k+1` is LOCKED the
effect is exactly pillar `k` → COMPLETE and pillar `k+1` → ACTIVE with all
other pillars untouched.  (When pillar `k+1` is not LOCKED — reachable via
`pillar_reset` — a pillar more than one position ahead can be unlocked.) -/
theorem pillar_completion_unlock :
    (∀ (ps : List Pillar) (k : Nat) (p q : Pillar),
      ps.find? (fun r => r.order == k) = some p → p.status = .active →
      q ∈ ps → q.order = k + 1 → q.status = .locked →
      pillar_mark_complete ps k true =
        ps.map (fun r =>
          if r.order = k then { r with status := PillarStatus.complete }
          else if r.order = k + 1 then { r with status := PillarStatus.active }
          else r)) ∧
    (∀ (k : Nat) (ps : List Pillar),
      (unlock_next_pillar .complete k ps = (ps, none) ∧
        ∀ p ∈ ps, ¬ (k < p.order ∧ p.status = PillarStatus.locked)) ∨
      (∃ m, k < m ∧ (∃ p ∈ ps, p.order = m ∧ p.status = PillarStatus.locked) ∧
        (∀ p ∈ ps, k < p.order → p.status = PillarStatus.locked → m ≤ p.order) ∧
        unlock_next_pillar .complete k ps = (setStatusAt m .active ps, some m))) := by
  constructor
  · intro ps k p q hfind hact hq hqo hqs
    unfold pillar_mark_complete
    rw [hfind]
    show (if p.status ≠ PillarStatus.active then ps
      else (unlock_next_pillar PillarStatus.complete k (setStatusAt k PillarStatus.complete ps)).1) = _
    rw [if_neg (by simp [hact])]
    have hq' : q ∈ setStatusAt k .complete ps := by
      unfold setStatusAt
      refine List.mem_map.mpr ⟨q, hq, ?_⟩
      rw [if_neg (by omega)]
    rw [unlock_next_exact k (setStatusAt k .complete ps) q hq' hqo hqs]
    show setStatusAt (k + 1) .active (setStatusAt k .complete ps) = _
    unfold setStatusAt
    rw [List.map_map]
    apply List.map_congr_left
    intro r _
    simp only [Function.comp_apply]
    by_cases h1 : r.order = k
    · rw [if_pos h1]
      rw [if_neg (by simp only [h1]; omega)]
      rw [if_pos h1]
    · rw [if_neg h1]
      rw [if_neg h1]
  · intro k ps
    exact unlock_next_cases k ps

/-- C8 amended witness: on a fresh book, completing the ACTIVE pillar 1
(with pillar 2 LOCKED) yields exactly pillar 1 COMPLETE and pillar 2
ACTIVE. -/
theorem pillar_completion_unlock_witness :
    pillar_mark_complete initialize_for_book 1 true =
      initialize_for_book.map (fun r =>
        if r.order = 1 then { r with status := PillarStatus.complete }
        else if r.order = 1 + 1 then { r with status := PillarStatus.active }
        else r) :=
  pillar_completion_unlock.1 initialize_for_book 1
    { order := 1, slug := "business_core", status := .active }
    { order := 2, slug := "avatar", status := .locked }
    (by decide) rfl (by decide) rfl rfl

end BookPilot
